import Mathlib

/-!
Verification development for the voice-driven symptom-triage conversation
engine of the cureltyix repository.

The embedding covers:
* the pure symptom extractor `extractSymptoms` of the voice-consultation
  component,
* the conversation state machine (`getAIResponseForState`,
  `handleUserMessage`) over `ConvState`,
* the analysis gateway (`analyzeSymptoms`, `getFallbackAnalysis`,
  `performAnalysis`) of `aiService.ts`, with the external oracle response
  modelled as an `Option SymptomAnalysis` parameter (`none` stands for a
  transport error or a parse failure),
* the session controller loop (`sessionStep` over `SessionState`), the
  single-threaded event model of the listen, process, speak cycle.
-/

/-- Character-list prefix test, models the beginning-of-string comparison
used by the JavaScript `String.prototype.includes` search. -/
def listStartsWith : List Char → List Char → Bool
  | [], _ => true
  | _ :: _, [] => false
  | a :: as, b :: bs => a == b && listStartsWith as bs

/-- Substring search over the underlying character list; first argument is
the needle. -/
def jsIncludesAux (needle : List Char) : List Char → Bool
  | [] => needle.isEmpty
  | c :: rest =>
    if listStartsWith needle (c :: rest) then true else jsIncludesAux needle rest

/-- Models the JavaScript `hay.includes(needle)` substring test. -/
def jsIncludes (hay needle : String) : Bool :=
  jsIncludesAux needle.toList hay.toList

/-- Models the JavaScript `text.toLowerCase()` (ASCII range, as used by the
source). -/
def jsToLower (s : String) : String :=
  String.mk (s.toList.map Char.toLower)

/-- Models the JavaScript `text.toUpperCase()` (ASCII range). -/
def jsToUpper (s : String) : String :=
  String.mk (s.toList.map Char.toUpper)

/-- Models the JavaScript emptiness test `!text.trim()`: true exactly when
the string consists of whitespace only. -/
def isBlank (s : String) : Bool :=
  s.toList.all Char.isWhitespace

/-- Models the JavaScript `array.join(sep)`. -/
def jsJoin (sep : String) : List String → String
  | [] => ""
  | [x] => x
  | x :: xs => x ++ sep ++ jsJoin sep xs

/-- Models `symptom.charAt(0).toUpperCase() + symptom.slice(1)` from
`extractSymptoms`: only the first character is upper-cased. -/
def capFirst (s : String) : String :=
  match s.toList with
  | [] => ""
  | c :: cs => String.mk (c.toUpper :: cs)

/-- Models the JavaScript `array.includes(x)` membership test on string
arrays. -/
def listHas (l : List String) (a : String) : Bool :=
  l.any (fun x => x == a)

/-- Conversation stages of the voice consultation component. -/
inductive Stage where
  | greeting
  | collecting
  | analyzing
  | complete
deriving DecidableEq

/-- The `ConversationState` record of the voice consultation component:
stage, turn counter, accumulated symptom labels and the raw transcript. -/
structure ConvState where
  stage : Stage
  turnCount : Nat
  symptoms : List String
  fullTranscript : List String
deriving DecidableEq

/-- The `SymptomAnalysis` record of `aiService.ts`. -/
structure SymptomAnalysis where
  priority : String
  recommendation : String
  specialty : String
  followUpQuestions : List String
deriving DecidableEq

/-- The fixed symptom vocabulary of `extractSymptoms`. -/
def symptomKeywords : List String :=
  ["fever", "cough", "cold", "headache", "migraine", "pain", "ache", "aching",
   "nausea", "vomiting", "dizzy", "dizziness", "fatigue", "tired", "weakness",
   "sore", "throat", "runny nose", "congestion", "chills", "sweating",
   "diarrhea", "constipation", "rash", "itching", "swelling", "bleeding",
   "breathing", "chest pain", "stomach", "abdominal", "back pain", "neck pain"]

/-- The negation guard of `extractSymptoms`: the input (already lower-cased)
contains one of the markers `don\x27t`, `no ` (with a trailing space) or
`nothing`. -/
def hasNegation (lowerText : String) : Bool :=
  jsIncludes lowerText "don\x27t" || jsIncludes lowerText "no " ||
    jsIncludes lowerText "nothing"

/-- The keyword scan loop of `extractSymptoms`: for each vocabulary entry
occurring in the lower-cased input, push its first-character-capitalized
form unless already present. -/
def extractGo (lowerText : String) : List String → List String → List String
  | found, [] => found
  | found, symptom :: rest =>
    if jsIncludes lowerText symptom then
      if listHas found (capFirst symptom) then extractGo lowerText found rest
      else extractGo lowerText (found ++ [capFirst symptom]) rest
    else extractGo lowerText found rest

/-- The `extractSymptoms` function of the voice consultation component. -/
def extractSymptoms (text : String) : List String :=
  let lowerText := jsToLower text
  if hasNegation lowerText then []
  else extractGo lowerText [] symptomKeywords

/-- Critical-symptom markers of `getFallbackAnalysis` in `aiService.ts`. -/
def criticalSymptoms : List String :=
  ["chest pain", "severe bleeding", "unconscious", "not breathing", "seizure",
   "stroke"]

/-- High-priority markers of `getFallbackAnalysis` in `aiService.ts`. -/
def highPrioritySymptoms : List String :=
  ["fever", "difficulty breathing", "severe pain", "vomiting", "dehydration"]

/-- The critical-tier condition of `getFallbackAnalysis`: some critical
marker is a substring of a lower-cased symptom or of the lower-cased
description. -/
def hasCriticalMarker (symptoms : List String) (description : String) : Bool :=
  criticalSymptoms.any (fun c =>
    (symptoms.map jsToLower).any (fun s => jsIncludes s c) ||
      jsIncludes (jsToLower description) c)

/-- The high-priority-tier condition of `getFallbackAnalysis`. -/
def hasHighPriorityMarker (symptoms : List String) (description : String) : Bool :=
  highPrioritySymptoms.any (fun h =>
    (symptoms.map jsToLower).any (fun s => jsIncludes s h) ||
      jsIncludes (jsToLower description) h)

/-- The deterministic local fallback classifier
`AIService.getFallbackAnalysis` of `aiService.ts`. -/
def getFallbackAnalysis (symptoms : List String) (description : String) :
    SymptomAnalysis :=
  if hasCriticalMarker symptoms description then
    { priority := "urgent"
      recommendation := "Seek immediate emergency medical attention. Call emergency services or go to the nearest emergency room immediately."
      specialty := "Emergency Medicine"
      followUpQuestions :=
        ["When did these symptoms start?", "Have you experienced this before?",
         "Are you taking any medications?"] }
  else if hasHighPriorityMarker symptoms description then
    { priority := "high"
      recommendation := "Please consult with a healthcare provider within 24 hours. Your symptoms require medical attention."
      specialty := "General Practitioner"
      followUpQuestions :=
        ["When did these symptoms begin?", "Have you taken any medication?",
         "Do you have any chronic conditions?"] }
  else
    { priority := "medium"
      recommendation := "Please schedule an appointment with a healthcare provider within the next few days to discuss your symptoms."
      specialty := "General Practitioner"
      followUpQuestions :=
        ["How long have you had these symptoms?",
         "Have the symptoms gotten worse?",
         "Are you experiencing any other issues?"] }

/-- The `AIService.analyzeSymptoms` entry point of `aiService.ts`. The
parameter `o` models the combined outcome of `callAIModel` and
`parseResponse`: `some parsed` is a successfully parsed oracle response,
`none` is a transport error or a parse failure, in which case the local
fallback classifier supplies the result (the `catch` branch of the source). -/
def analyzeSymptoms (o : Option SymptomAnalysis) (symptoms : List String)
    (description : String) : SymptomAnalysis :=
  match o with
  | some parsed => parsed
  | none => getFallbackAnalysis symptoms description

/-- The `performAnalysis` helper of the voice consultation component: joins
the transcript into a narrative, runs the analysis gateway and formats the
result message. The `catch` branch of the source is unreachable in this
total model because `analyzeSymptoms` is total. -/
def performAnalysis (o : Option SymptomAnalysis) (conv : ConvState) : String :=
  let description := jsJoin " " conv.fullTranscript
  let analysis := analyzeSymptoms o conv.symptoms description
  "Based on your symptoms, here\x27s my analysis:\n\nPriority: " ++
    jsToUpper analysis.priority ++
    "\nRecommendation: " ++ analysis.recommendation ++
    "\nSpecialty: " ++
    (if analysis.specialty = "" then "General Practitioner"
     else analysis.specialty) ++
    "\n\nWould you like me to create a consultation request?"

/-- The `getAIResponseForState` transition function of the voice
consultation component: from the (already updated) conversation state and
the latest user message, produce the system utterance and the next stage.
In the source every branch supplies a `nextStage`, and the trailing
fallback return after the four stage branches is dead code. -/
def getAIResponseForState (o : Option SymptomAnalysis) (conv : ConvState)
    (userMessage : String) : String × Stage :=
  let lowerMsg := jsToLower userMessage
  match conv.stage with
  | Stage.greeting =>
    if 0 < conv.symptoms.length then
      ("I understand you\x27re experiencing " ++
         jsToLower (conv.symptoms.headD "") ++
         ". Tell me more about it - when did it start?", Stage.collecting)
    else
      ("Please describe your symptoms. What\x27s bothering you?",
       Stage.collecting)
  | Stage.collecting =>
    if conv.symptoms.length = 0 ∧ 3 ≤ conv.turnCount then
      ("I\x27m having trouble identifying specific symptoms. Could you describe what physical sensations or problems you\x27re experiencing?",
       Stage.collecting)
    else if 0 < conv.symptoms.length ∧ 3 ≤ conv.turnCount then
      ("Okay, I\x27ve noted: " ++ jsJoin ", " conv.symptoms ++
         ". Anything else, or should I analyze these symptoms?",
       Stage.analyzing)
    else
      let questions :=
        ["When did these symptoms start?",
         "How severe would you say they are?",
         "Have you noticed any patterns or triggers?"]
      -- JavaScript evaluates `questions[Math.min(turnCount - 1, 2)]` and
      -- falls back to the last question when the index is out of range,
      -- which happens exactly at turnCount = 0 (index -1).
      (if conv.turnCount = 0 then questions.getLastD ""
       else questions.getD (min (conv.turnCount - 1) (questions.length - 1)) "",
       Stage.collecting)
  | Stage.analyzing =>
    let wantsAnalysis :=
      jsIncludes lowerMsg "no" || jsIncludes lowerMsg "nothing" ||
        jsIncludes lowerMsg "analyze" || jsIncludes lowerMsg "yes" ||
        jsIncludes lowerMsg "that\x27s all" || jsIncludes lowerMsg "nope"
    if wantsAnalysis then
      if conv.symptoms.length = 0 then
        ("I don\x27t have any symptoms recorded. Could you describe what you\x27re feeling?",
         Stage.collecting)
      else
        (performAnalysis o conv, Stage.complete)
    else
      ("Noted. Any other symptoms?", Stage.analyzing)
  | Stage.complete =>
    let wantsConsultation :=
      jsIncludes lowerMsg "yes" || jsIncludes lowerMsg "create" ||
        jsIncludes lowerMsg "sure" || jsIncludes lowerMsg "please"
    if wantsConsultation then
      ("Perfect! I\x27ll create your consultation request now.", Stage.complete)
    else
      ("No problem. Let me know if you need anything else.", Stage.complete)

/-- Insertion-order deduplication loop; models the JavaScript
`[...new Set(list)]` construction (keep the first occurrence of each
element). -/
def dedupGo : List String → List String → List String
  | acc, [] => acc
  | acc, x :: xs =>
    if listHas acc x then dedupGo acc xs else dedupGo (acc ++ [x]) xs

/-- Models `[...new Set(list)]`. -/
def jsSetDedup (l : List String) : List String :=
  dedupGo [] l

/-- The state update of `handleUserMessage` before the response is
computed (source lines: push to transcript, bump turn count, union the
extracted symptoms when non-empty). -/
def ingestUtterance (conv : ConvState) (text : String) : ConvState :=
  let newSymptoms := extractSymptoms text
  let conv1 :=
    { conv with
      fullTranscript := conv.fullTranscript ++ [text]
      turnCount := conv.turnCount + 1 }
  if 0 < newSymptoms.length then
    { conv1 with symptoms := jsSetDedup (conv1.symptoms ++ newSymptoms) }
  else conv1

/-- The `handleUserMessage` handler of the voice consultation component as
a state transition: a blank utterance is rejected before any update,
otherwise the state is updated, the response computed, the stage advanced,
and the system utterance returned (to be spoken). -/
def handleUserMessage (o : Option SymptomAnalysis) (conv : ConvState)
    (text : String) : ConvState × Option String :=
  if isBlank text then (conv, none)
  else
    let conv2 := ingestUtterance conv text
    let resp := getAIResponseForState o conv2 text
    ({ conv2 with stage := resp.2 }, some resp.1)

/-- The initial conversation state of the component (stage `greeting`, no
turns, no symptoms, empty transcript). -/
def initialConversationState : ConvState :=
  { stage := Stage.greeting, turnCount := 0, symptoms := [],
    fullTranscript := [] }

/-- Processes a sequence of user utterances from the initial state,
keeping the last system utterance. -/
def runConv (o : Option SymptomAnalysis) (us : List String) :
    ConvState × Option String :=
  us.foldl (fun acc u => handleUserMessage o acc.1 u)
    (initialConversationState, none)

/-- Position of a stage in the forward order
greeting, collecting, analyzing, complete. -/
def stageIdx : Stage → Nat
  | Stage.greeting => 0
  | Stage.collecting => 1
  | Stage.analyzing => 2
  | Stage.complete => 3

/-- Events driving the session controller of the voice consultation
component: user actions, the committed (debounced) final capture result,
and the device callbacks. -/
inductive SEvent where
  | startListening
  | finalUtterance (text : String)
  | playbackEnd
  | playbackError
  | userStopListening
  | userStopSpeaking
  | captureError (transient : Bool)
  | toggleAuto

/-- The session-level state of the voice consultation component: the
conversation state plus the capture flag (`isListening`), the playback
flag (`isSpeaking`), the `shouldResumeListening` ref and the
`autoResumeListen` toggle. -/
structure SessionState where
  conv : ConvState
  capturing : Bool
  speaking : Bool
  shouldResume : Bool
  autoResume : Bool
deriving DecidableEq

/-- One step of the single-threaded session controller. Each case is the
net state effect of the corresponding handler in the component:
`handleStartListening`, the debounce commit into `handleUserMessage`, the
`speakText` `onEnd` and `onError` callbacks, `handleStopListening`,
`handleStopSpeaking`, the capture error callback, and `toggleAutoListen`.
Device callbacks are guarded by the phase they belong to (a playback
callback fires only while speaking, a capture callback only while
capturing, matching the `getIsListening` check of the debounce). -/
def sessionStep (o : Option SymptomAnalysis) (s : SessionState) :
    SEvent → SessionState
  | SEvent.startListening =>
    { s with speaking := false, capturing := true, shouldResume := true }
  | SEvent.finalUtterance text =>
    if s.capturing = false then s
    else if isBlank text then s
    else
      { s with
        conv := (handleUserMessage o s.conv text).1
        capturing := false
        speaking := true
        shouldResume := s.autoResume }
  | SEvent.playbackEnd =>
    if s.speaking = false then s
    else if s.shouldResume ∧ s.autoResume ∧ s.conv.stage ≠ Stage.complete then
      { s with speaking := false, capturing := true, shouldResume := true }
    else { s with speaking := false }
  | SEvent.playbackError =>
    if s.speaking = false then s
    else if s.shouldResume ∧ s.autoResume then
      { s with speaking := false, capturing := true, shouldResume := true }
    else { s with speaking := false }
  | SEvent.userStopListening =>
    { s with capturing := false, shouldResume := false }
  | SEvent.userStopSpeaking =>
    if s.autoResume ∧ s.conv.stage ≠ Stage.complete then
      { s with speaking := false, capturing := true, shouldResume := true }
    else { s with speaking := false }
  | SEvent.captureError transient =>
    if s.capturing = false then s
    else if transient ∧ s.shouldResume ∧ s.autoResume ∧ s.speaking = false then
      { s with capturing := true }
    else { s with capturing := false }
  | SEvent.toggleAuto =>
    if s.autoResume then
      { s with autoResume := false, shouldResume := false, capturing := false }
    else { s with autoResume := true }

/-- The session state right after the component mounts: the greeting is
being spoken, nothing is captured yet, auto-resume defaults to on. -/
def initSessionState : SessionState :=
  { conv := initialConversationState, capturing := false, speaking := true,
    shouldResume := false, autoResume := true }

/-- Runs the session controller over a list of events. -/
def runSession (o : Option SymptomAnalysis) (es : List SEvent) : SessionState :=
  es.foldl (sessionStep o) initSessionState

/-- Event script reaching the `complete` stage with the final analysis
message being spoken. -/
def c6Events : List SEvent :=
  [SEvent.startListening, SEvent.finalUtterance "I have a fever",
   SEvent.playbackEnd, SEvent.finalUtterance "it started yesterday",
   SEvent.playbackEnd, SEvent.finalUtterance "it is mild",
   SEvent.playbackEnd, SEvent.finalUtterance "no that is all"]

/-- The four-utterance scenario sequence of the specification. -/
def c1Utterances : List String :=
  ["I have a really bad headache", "started this morning",
   "it\x27s about a 7 out of 10", "no that\x27s all"]

/-- Membership characterization for the JavaScript array membership test. -/
theorem listHas_iff (l : List String) (a : String) :
    listHas l a = true ↔ a ∈ l := by
  simp [listHas, List.any_eq_true, beq_iff_eq]

/-- Membership characterization of the deduplication loop. -/
theorem mem_dedupGo (a : String) :
    ∀ (xs acc : List String), a ∈ dedupGo acc xs ↔ a ∈ acc ∨ a ∈ xs := by
  intro xs
  induction xs with
  | nil => intro acc; simp [dedupGo]
  | cons x xs ih =>
    intro acc
    by_cases h : listHas acc x = true
    · have hx : x ∈ acc := (listHas_iff acc x).mp h
      rw [show dedupGo acc (x :: xs) = dedupGo acc xs from by simp [dedupGo, h], ih]
      constructor
      · rintro (h1 | h1)
        · exact Or.inl h1
        · exact Or.inr (List.mem_cons_of_mem x h1)
      · rintro (h1 | h1)
        · exact Or.inl h1
        · rcases List.mem_cons.mp h1 with h2 | h2
          · exact Or.inl (h2 ▸ hx)
          · exact Or.inr h2
    · rw [show dedupGo acc (x :: xs) = dedupGo (acc ++ [x]) xs from by simp [dedupGo, h], ih]
      simp only [List.mem_append, List.mem_singleton, List.mem_cons]
      tauto

/-- Membership is preserved by the set-style deduplication. -/
theorem mem_jsSetDedup (a : String) (l : List String) :
    a ∈ jsSetDedup l ↔ a ∈ l := by
  rw [jsSetDedup, mem_dedupGo]
  simp

/-- Ingesting an utterance does not change the stage. -/
theorem ingestUtterance_stage (conv : ConvState) (text : String) :
    (ingestUtterance conv text).stage = conv.stage := by
  simp only [ingestUtterance]
  split <;> rfl

/-- Symptom field of the ingested state. -/
theorem ingestUtterance_symptoms (conv : ConvState) (text : String) :
    (ingestUtterance conv text).symptoms =
      if 0 < (extractSymptoms text).length then
        jsSetDedup (conv.symptoms ++ extractSymptoms text)
      else conv.symptoms := by
  by_cases h : 0 < (extractSymptoms text).length <;> simp [ingestUtterance, h]

/-- Previously accumulated symptoms survive the ingestion of any
utterance. -/
theorem ingestUtterance_symptoms_mono (conv : ConvState) (text : String) :
    ∀ x ∈ conv.symptoms, x ∈ (ingestUtterance conv text).symptoms := by
  intro x hx
  rw [ingestUtterance_symptoms]
  split
  · exact (mem_jsSetDedup x _).mpr (List.mem_append_left _ hx)
  · exact hx

/-- Symptom field of `handleUserMessage`. -/
theorem handleUserMessage_symptoms (o : Option SymptomAnalysis)
    (conv : ConvState) (text : String) :
    (handleUserMessage o conv text).1.symptoms =
      if isBlank text then conv.symptoms
      else (ingestUtterance conv text).symptoms := by
  by_cases h : isBlank text = true <;> simp [handleUserMessage, h]

/-- Stage field of `handleUserMessage` on a non-blank utterance. -/
theorem handleUserMessage_stage (o : Option SymptomAnalysis)
    (conv : ConvState) (text : String) (h : isBlank text = false) :
    (handleUserMessage o conv text).1.stage =
      (getAIResponseForState o (ingestUtterance conv text) text).2 := by
  simp [handleUserMessage, h]

/-- Produced system utterance of `handleUserMessage` on a non-blank
utterance. -/
theorem handleUserMessage_msg (o : Option SymptomAnalysis)
    (conv : ConvState) (text : String) (h : isBlank text = false) :
    (handleUserMessage o conv text).2 =
      some (getAIResponseForState o (ingestUtterance conv text) text).1 := by
  simp [handleUserMessage, h]

/-- Characterization of the keyword scan loop: when the already-collected
labels are disjoint from the (pairwise distinct) formatted keywords still
to be scanned, the loop appends exactly the formatted forms of the
keywords that occur in the input. -/
theorem extractGo_eq (lt : String) :
    ∀ (ks found : List String),
      (∀ k ∈ ks, capFirst k ∉ found) →
      (ks.map capFirst).Nodup →
      extractGo lt found ks =
        found ++ (ks.filter (fun k => jsIncludes lt k)).map capFirst := by
  intro ks
  induction ks with
  | nil => intro found _ _; simp [extractGo]
  | cons k ks ih =>
    intro found hnotin hnd
    have hcons : (∀ x ∈ ks, ¬capFirst x = capFirst k) ∧
        (List.map capFirst ks).Nodup := by simpa using hnd
    by_cases hk : jsIncludes lt k = true
    · have hnf : listHas found (capFirst k) = false := by
        have hmem := hnotin k (List.mem_cons_self k ks)
        cases hcontra : listHas found (capFirst k)
        · rfl
        · exact absurd ((listHas_iff _ _).mp hcontra) hmem
      have hnotin' : ∀ k2 ∈ ks, capFirst k2 ∉ found ++ [capFirst k] := by
        intro k2 hk2
        simp only [List.mem_append, List.mem_singleton]
        rintro (h1 | h1)
        · exact hnotin k2 (List.mem_cons_of_mem k hk2) h1
        · exact hcons.1 k2 hk2 h1
      have step : extractGo lt found (k :: ks) =
          extractGo lt (found ++ [capFirst k]) ks := by
        simp [extractGo, hk, hnf]
      rw [step, ih (found ++ [capFirst k]) hnotin' hcons.2]
      simp [List.filter_cons, hk, List.append_assoc]
    · have step : extractGo lt found (k :: ks) = extractGo lt found ks := by
        simp [extractGo, hk]
      have hnotin' : ∀ k2 ∈ ks, capFirst k2 ∉ found := fun k2 hk2 =>
        hnotin k2 (List.mem_cons_of_mem k hk2)
      rw [step, ih found hnotin' hcons.2]
      simp [List.filter_cons, hk]

/-- On a non-negated input the extractor is the filter of the vocabulary by
substring occurrence, formatted by first-character capitalization. -/
theorem extractSymptoms_eq (text : String)
    (h : hasNegation (jsToLower text) = false) :
    extractSymptoms text =
      (symptomKeywords.filter
        (fun k => jsIncludes (jsToLower text) k)).map capFirst := by
  rw [show extractSymptoms text = extractGo (jsToLower text) [] symptomKeywords
      from by simp [extractSymptoms, h]]
  exact extractGo_eq (jsToLower text) symptomKeywords []
    (by intro k _; simp) (by decide)

/-- The extractor never returns duplicate labels. -/
theorem extractSymptoms_nodup (text : String) :
    (extractSymptoms text).Nodup := by
  by_cases h : hasNegation (jsToLower text) = true
  · simp [extractSymptoms, h]
  · rw [extractSymptoms_eq text (by simpa using h)]
    exact List.Nodup.sublist
      (List.Sublist.map capFirst (List.filter_sublist symptomKeywords))
      (by decide)

/-- The next stage computed by `getAIResponseForState` never moves
backward, except for the analyzing-to-collecting edge taken exactly when a
completion signal arrives with no recorded symptoms. -/
theorem getAIResponseForState_stage (o : Option SymptomAnalysis)
    (conv : ConvState) (u : String) :
    stageIdx conv.stage ≤ stageIdx (getAIResponseForState o conv u).2 ∨
      (conv.stage = Stage.analyzing ∧
        (getAIResponseForState o conv u).2 = Stage.collecting ∧
        conv.symptoms = []) := by
  rcases conv with ⟨st, tc, sy, tr⟩
  cases st
  · left
    simp only [getAIResponseForState]
    split_ifs <;> simp [stageIdx]
  · left
    simp only [getAIResponseForState]
    split_ifs <;> simp [stageIdx]
  · simp only [getAIResponseForState]
    split_ifs with h1 h2
    · right
      refine ⟨by trivial, by trivial, ?_⟩
      simpa [List.length_eq_zero] using h2
    · left; simp [stageIdx]
    · left; simp [stageIdx]
  · left
    simp only [getAIResponseForState]
    split_ifs <;> simp [stageIdx]

/-- In the `complete` stage every response keeps the stage at `complete`. -/
theorem getAIResponseForState_complete (o : Option SymptomAnalysis)
    (conv : ConvState) (u : String) (h : conv.stage = Stage.complete) :
    (getAIResponseForState o conv u).2 = Stage.complete := by
  rcases conv with ⟨st, tc, sy, tr⟩
  have h2 : st = Stage.complete := h
  subst h2
  simp only [getAIResponseForState]
  split_ifs <;> rfl

/-- In the `analyzing` stage, a message containing the two letters `no`
with recorded symptoms triggers the analysis and completes the dialogue. -/
theorem getAIResponseForState_analyzing (o : Option SymptomAnalysis)
    (conv : ConvState) (u : String)
    (h1 : conv.stage = Stage.analyzing)
    (h2 : jsIncludes (jsToLower u) "no" = true)
    (h3 : conv.symptoms ≠ []) :
    getAIResponseForState o conv u = (performAnalysis o conv, Stage.complete) := by
  rcases conv with ⟨st, tc, sy, tr⟩
  have hst : st = Stage.analyzing := h1
  subst hst
  have hlen : ¬ sy.length = 0 := by
    simpa [List.length_eq_zero] using h3
  simp only [getAIResponseForState]
  simp [h2, hlen]

/-- Each session event preserves the mutual exclusion of capture and
playback. -/
theorem sessionStep_exclusive (o : Option SymptomAnalysis) (s : SessionState)
    (e : SEvent) (h : (s.capturing && s.speaking) = false) :
    ((sessionStep o s e).capturing && (sessionStep o s e).speaking) = false := by
  cases e <;> simp only [sessionStep] <;> (try split_ifs) <;> simp_all

/-- The exclusion invariant propagates through any event fold. -/
theorem foldSession_exclusive (o : Option SymptomAnalysis) :
    ∀ (es : List SEvent) (s : SessionState),
      (s.capturing && s.speaking) = false →
      ((es.foldl (sessionStep o) s).capturing &&
        (es.foldl (sessionStep o) s).speaking) = false := by
  intro es
  induction es with
  | nil => intro s hs; simpa using hs
  | cons e es ih =>
    intro s hs
    simpa using ih (sessionStep o s e) (sessionStep_exclusive o s e hs)

/-- C1 (counterexample): in the scripted scenario the final symptom set is
not exactly the singleton Headache: the vocabulary entry `ache` also
matches inside the word `headache`, so the label `Ache` is recorded as
well. -/
theorem scenario_headache_counterexample :
    "Ache" ∈ (runConv none c1Utterances).1.symptoms ∧
      ("Ache" : String) ≠ "Headache" := by
  decide

/-- C1 (amended): processing the scripted utterance sequence from the
initial state ends in stage `complete` after four turns, with symptoms
exactly Headache and Ache, and (with the oracle failing, so the fallback
classifier is used) a final analysis message containing the non-empty
fallback recommendation. -/
theorem scenario_headache_amended :
    (runConv none c1Utterances).1.stage = Stage.complete ∧
    (runConv none c1Utterances).1.turnCount = 4 ∧
    (runConv none c1Utterances).1.symptoms = ["Headache", "Ache"] ∧
    jsIncludes ((runConv none c1Utterances).2.getD "")
      "Recommendation: Please schedule an appointment with a healthcare provider within the next few days to discuss your symptoms." = true ∧
    ("Please schedule an appointment with a healthcare provider within the next few days to discuss your symptoms." : String) ≠ "" := by
  refine ⟨by decide, by decide, by decide, by decide, by decide⟩

/-- C2 (counterexample): an utterance that contains a known keyword and no
negation marker need not strictly grow the symptom set; when the extracted
symptom is already recorded, the set is unchanged. -/
theorem symptoms_strict_growth_counterexample :
    hasNegation (jsToLower "the fever persists") = false ∧
    extractSymptoms "the fever persists" ≠ [] ∧
    (handleUserMessage none
        (handleUserMessage none initialConversationState "I have a fever").1
        "the fever persists").1.symptoms =
      (handleUserMessage none initialConversationState
        "I have a fever").1.symptoms := by
  refine ⟨by decide, by decide, by decide⟩

/-- C2 (amended): across `handleUserMessage` the symptom set is monotone
under set union: every previously accumulated symptom survives, every
symptom extracted from a non-blank utterance is added, and an utterance
containing a negation marker leaves the set unchanged. The growth is not
strict when every extracted symptom is already present. -/
theorem symptoms_monotone_union (o : Option SymptomAnalysis)
    (conv : ConvState) (u : String) :
    (∀ x ∈ conv.symptoms, x ∈ (handleUserMessage o conv u).1.symptoms) ∧
    (isBlank u = false →
      ∀ x ∈ extractSymptoms u, x ∈ (handleUserMessage o conv u).1.symptoms) ∧
    (hasNegation (jsToLower u) = true →
      (handleUserMessage o conv u).1.symptoms = conv.symptoms) := by
  refine ⟨?_, ?_, ?_⟩
  · intro x hx
    rw [handleUserMessage_symptoms]
    split
    · exact hx
    · exact ingestUtterance_symptoms_mono conv u x hx
  · intro hb x hx
    rw [handleUserMessage_symptoms, if_neg (by simp [hb]), ingestUtterance_symptoms,
      if_pos (List.length_pos.mpr (List.ne_nil_of_mem hx))]
    exact (mem_jsSetDedup x _).mpr (List.mem_append_right _ hx)
  · intro hneg
    have hext : extractSymptoms u = [] := by simp [extractSymptoms, hneg]
    rw [handleUserMessage_symptoms]
    split
    · rfl
    · rw [ingestUtterance_symptoms, hext]
      simp

/-- C2 (witness): concrete instance of the monotone-union theorem, adding
Cough to an existing Fever and leaving the set unchanged under a negated
utterance. -/
theorem symptoms_monotone_union_witness :
    "Fever" ∈ (handleUserMessage none
        ⟨Stage.collecting, 1, ["Fever"], ["I have a fever"]⟩
        "I also have a cough").1.symptoms ∧
    "Cough" ∈ (handleUserMessage none
        ⟨Stage.collecting, 1, ["Fever"], ["I have a fever"]⟩
        "I also have a cough").1.symptoms ∧
    (handleUserMessage none
        ⟨Stage.collecting, 1, ["Fever"], ["I have a fever"]⟩
        "nothing else").1.symptoms = ["Fever"] :=
  ⟨(symptoms_monotone_union none
      ⟨Stage.collecting, 1, ["Fever"], ["I have a fever"]⟩
      "I also have a cough").1 "Fever" (by decide),
   (symptoms_monotone_union none
      ⟨Stage.collecting, 1, ["Fever"], ["I have a fever"]⟩
      "I also have a cough").2.1 (by decide) "Cough" (by decide),
   (symptoms_monotone_union none
      ⟨Stage.collecting, 1, ["Fever"], ["I have a fever"]⟩
      "nothing else").2.2 (by decide)⟩

/-- C3: the stage never moves backward in the order greeting, collecting,
analyzing, complete, except for the single analyzing-to-collecting edge
taken when a completion signal arrives with an empty symptom set; once
`complete`, the stage stays `complete`. -/
theorem stage_never_regresses (o : Option SymptomAnalysis)
    (conv : ConvState) (u : String) :
    (stageIdx conv.stage ≤ stageIdx (handleUserMessage o conv u).1.stage ∨
      (conv.stage = Stage.analyzing ∧
        (handleUserMessage o conv u).1.stage = Stage.collecting ∧
        (handleUserMessage o conv u).1.symptoms = [])) ∧
    (conv.stage = Stage.complete →
      (handleUserMessage o conv u).1.stage = Stage.complete) := by
  by_cases hb : isBlank u = true
  · constructor
    · left
      simp [handleUserMessage, hb]
    · intro hc
      simp [handleUserMessage, hb, hc]
  · have hb' : isBlank u = false := by simpa using hb
    have hstage := handleUserMessage_stage o conv u hb'
    have hsym : (handleUserMessage o conv u).1.symptoms =
        (ingestUtterance conv u).symptoms := by
      rw [handleUserMessage_symptoms, if_neg (by simp [hb'])]
    have hist : (ingestUtterance conv u).stage = conv.stage :=
      ingestUtterance_stage conv u
    constructor
    · rcases getAIResponseForState_stage o (ingestUtterance conv u) u with
        h | ⟨h1, h2, h3⟩
      · left
        rw [hstage]
        rw [hist] at h
        exact h
      · right
        exact ⟨hist.symm.trans h1, hstage.trans h2, hsym.trans h3⟩
    · intro hc
      rw [hstage]
      exact getAIResponseForState_complete o _ u (hist.trans hc)

/-- C3 (witness): a user utterance processed in the `complete` stage keeps
the stage at `complete`. -/
theorem stage_never_regresses_witness :
    (handleUserMessage none ⟨Stage.complete, 4, ["Fever"], ["I have a fever"]⟩
      "ok").1.stage = Stage.complete :=
  (stage_never_regresses none
    ⟨Stage.complete, 4, ["Fever"], ["I have a fever"]⟩ "ok").2 rfl

/-- C4: any input containing a negation marker in its lower-cased form
makes the extractor return the empty set, and the utterance about not
having any pain, handled at the greeting stage, yields an empty symptom
set, the transition to `collecting`, and the generic prompt, with no Pain
entry. -/
theorem negation_guard_empties_extraction :
    (∀ text : String, hasNegation (jsToLower text) = true →
        extractSymptoms text = []) ∧
    handleUserMessage none initialConversationState "I don\x27t have any pain" =
      (⟨Stage.collecting, 1, [], ["I don\x27t have any pain"]⟩,
        some "Please describe your symptoms. What\x27s bothering you?") := by
  constructor
  · intro text h
    simp [extractSymptoms, h]
  · decide

/-- C4 (witness): the marker `no ` suppresses an otherwise-matching
keyword. -/
theorem negation_guard_witness :
    extractSymptoms "I have no pain today" = [] :=
  negation_guard_empties_extraction.1 "I have no pain today" (by decide)

/-- C5: when the oracle call or the response parsing fails,
`analyzeSymptoms` returns the total local fallback classifier result:
`urgent` with Emergency Medicine when a critical marker occurs as a
substring of a lower-cased symptom or of the lower-cased description,
otherwise `high` with General Practitioner when an elevated marker so
occurs, otherwise `medium`; in particular, with the oracle failing,
analyzing the symptom Fever yields priority `high` and specialty General
Practitioner. Totality of the fallback holds by construction: it is a
total function on all inputs. -/
theorem analyze_fallback_classifier :
    (∀ (s : List String) (d : String),
        analyzeSymptoms none s d = getFallbackAnalysis s d) ∧
    (∀ (s : List String) (d : String), hasCriticalMarker s d = true →
        (analyzeSymptoms none s d).priority = "urgent" ∧
        (analyzeSymptoms none s d).specialty = "Emergency Medicine") ∧
    (∀ (s : List String) (d : String), hasCriticalMarker s d = false →
        hasHighPriorityMarker s d = true →
        (analyzeSymptoms none s d).priority = "high" ∧
        (analyzeSymptoms none s d).specialty = "General Practitioner") ∧
    (∀ (s : List String) (d : String), hasCriticalMarker s d = false →
        hasHighPriorityMarker s d = false →
        (analyzeSymptoms none s d).priority = "medium" ∧
        (analyzeSymptoms none s d).specialty = "General Practitioner") ∧
    ((analyzeSymptoms none ["Fever"] "...").priority = "high" ∧
      (analyzeSymptoms none ["Fever"] "...").specialty =
        "General Practitioner") := by
  refine ⟨fun s d => rfl, ?_, ?_, ?_, by decide⟩
  · intro s d h
    simp [analyzeSymptoms, getFallbackAnalysis, h]
  · intro s d h1 h2
    simp [analyzeSymptoms, getFallbackAnalysis, h1, h2]
  · intro s d h1 h2
    simp [analyzeSymptoms, getFallbackAnalysis, h1, h2]

/-- C5 (witness): a critical marker forces `urgent` and a marker-free
input falls through to `medium`. -/
theorem analyze_fallback_classifier_witness :
    (analyzeSymptoms none ["Chest pain"] "").priority = "urgent" ∧
    (analyzeSymptoms none ["Tired"] "feeling tired").priority = "medium" :=
  ⟨(analyze_fallback_classifier.2.1 ["Chest pain"] "" (by decide)).1,
   (analyze_fallback_classifier.2.2.2.1 ["Tired"] "feeling tired"
      (by decide) (by decide)).1⟩

/-- C6 (counterexample): after a scripted session that reaches the
`complete` stage with the final analysis message being spoken, the
playback-error callback restarts capture even though the stage is
`complete`: the error path lacks the stage guard of the end path. -/
theorem playback_error_resume_counterexample :
    (runSession none c6Events).conv.stage = Stage.complete ∧
    (runSession none c6Events).capturing = false ∧
    (sessionStep none (runSession none c6Events)
        SEvent.playbackError).capturing = true := by
  refine ⟨by decide, by decide, by decide⟩

/-- C6 (amended): on the playback-end callback capture is restarted only
when both auto-resume flags are set and the stage is not `complete` (in
particular never at `complete`); on the playback-error callback the stage
is not consulted, so capture is restarted whenever the flags are set while
speaking, even at `complete`. -/
theorem playback_resume_conditions (o : Option SymptomAnalysis)
    (s : SessionState) :
    ((sessionStep o s SEvent.playbackEnd).capturing = true →
      s.capturing = true ∨
        (s.shouldResume = true ∧ s.autoResume = true ∧
          s.conv.stage ≠ Stage.complete)) ∧
    (s.conv.stage = Stage.complete →
      (sessionStep o s SEvent.playbackEnd).capturing = s.capturing) ∧
    ((sessionStep o s SEvent.playbackError).capturing = true →
      s.capturing = true ∨ (s.shouldResume = true ∧ s.autoResume = true)) ∧
    (s.speaking = true → s.shouldResume = true → s.autoResume = true →
      (sessionStep o s SEvent.playbackError).capturing = true) := by
  refine ⟨?_, ?_, ?_, ?_⟩
  · simp only [sessionStep]
    split_ifs with h1 h2
    · exact fun h => Or.inl h
    · exact fun _ => Or.inr ⟨h2.1, h2.2.1, h2.2.2⟩
    · exact fun h => Or.inl h
  · intro hc
    simp only [sessionStep]
    split_ifs with h1 h2
    · rfl
    · exact absurd hc h2.2.2
    · rfl
  · simp only [sessionStep]
    split_ifs with h1 h2
    · exact fun h => Or.inl h
    · exact fun _ => Or.inr ⟨h2.1, h2.2⟩
    · exact fun h => Or.inl h
  · intro hsp hsr har
    simp only [sessionStep]
    split_ifs with h1 h2
    · rw [h1] at hsp
      exact absurd hsp (by simp)
    · rfl
    · exact absurd ⟨hsr, har⟩ h2

/-- C6 (witness): on the playback-end callback, capture stays off in the
`complete` stage even with both auto-resume flags set. -/
theorem playback_resume_conditions_witness :
    (sessionStep none
        ⟨⟨Stage.complete, 4, ["Fever"], ["I have a fever"]⟩,
          false, true, true, true⟩
        SEvent.playbackEnd).capturing = false :=
  (playback_resume_conditions none
    ⟨⟨Stage.complete, 4, ["Fever"], ["I have a fever"]⟩,
      false, true, true, true⟩).2.1 rfl

/-- C7 (counterexample): multi-word keywords are not fully title-cased:
only the first character of the matched keyword is capitalized, so a chest
pain utterance records the label with a lower-case second word. -/
theorem title_case_counterexample :
    extractSymptoms "I have chest pain" = ["Pain", "Chest pain"] ∧
    "Chest Pain" ∉ extractSymptoms "I have chest pain" ∧
    hasNegation (jsToLower "I have chest pain") = false := by
  refine ⟨by decide, by decide, by decide⟩

/-- C7 (amended): on a negation-free input the extractor returns exactly
the vocabulary keywords occurring as substrings of the lower-cased input,
each formatted by capitalizing only its first character, with no
duplicates. -/
theorem extract_filter_map_capFirst (text : String)
    (h : hasNegation (jsToLower text) = false) :
    extractSymptoms text =
      (symptomKeywords.filter
        (fun k => jsIncludes (jsToLower text) k)).map capFirst ∧
    (extractSymptoms text).Nodup :=
  ⟨extractSymptoms_eq text h, extractSymptoms_nodup text⟩

/-- C7 (witness): the filter-map characterization evaluated on a concrete
two-symptom utterance. -/
theorem extract_filter_map_capFirst_witness :
    extractSymptoms "I have a fever and a cough" =
      (symptomKeywords.filter
        (fun k => jsIncludes (jsToLower "I have a fever and a cough") k)).map
        capFirst ∧
    (extractSymptoms "I have a fever and a cough").Nodup :=
  extract_filter_map_capFirst "I have a fever and a cough" (by decide)

/-- C8: the session controller never has capture and playback active at
the same time: in every state reachable by any event sequence from the
mounted component, at most one of the capturing and speaking flags is
true. -/
theorem capture_speaking_exclusive (o : Option SymptomAnalysis)
    (es : List SEvent) :
    ((runSession o es).capturing && (runSession o es).speaking) = false :=
  foldSession_exclusive o es initSessionState rfl

/-- C9: in the `analyzing` stage the completion test is a lower-cased
substring check, so any non-blank utterance containing the two letters
`no` anywhere (also inside words such as `know`) counts as a completion
signal; with a non-empty symptom set it triggers the analysis call
(`performAnalysis` on the ingested state) and the transition to
`complete`. -/
theorem analyzing_no_substring_completes (o : Option SymptomAnalysis)
    (conv : ConvState) (u : String)
    (h1 : conv.stage = Stage.analyzing)
    (h2 : jsIncludes (jsToLower u) "no" = true)
    (h3 : conv.symptoms ≠ [])
    (h4 : isBlank u = false) :
    (handleUserMessage o conv u).1.stage = Stage.complete ∧
    (handleUserMessage o conv u).2 =
      some (performAnalysis o (ingestUtterance conv u)) := by
  have hist : (ingestUtterance conv u).stage = Stage.analyzing :=
    (ingestUtterance_stage conv u).trans h1
  have hsy : (ingestUtterance conv u).symptoms ≠ [] := by
    rcases List.exists_mem_of_ne_nil conv.symptoms h3 with ⟨x, hx⟩
    exact List.ne_nil_of_mem (ingestUtterance_symptoms_mono conv u x hx)
  have hresp := getAIResponseForState_analyzing o (ingestUtterance conv u) u
    hist h2 hsy
  constructor
  · rw [handleUserMessage_stage o conv u h4, hresp]
  · rw [handleUserMessage_msg o conv u h4, hresp]

/-- C9 (witness): the utterance `you know` contains `no` inside `know`;
processed at `analyzing` with a recorded Fever it completes the dialogue. -/
theorem analyzing_no_substring_completes_witness :
    (handleUserMessage none ⟨Stage.analyzing, 3, ["Fever"], ["I have a fever"]⟩
        "you know").1.stage = Stage.complete ∧
    jsIncludes (jsToLower "you know") "no" = true :=
  ⟨(analyzing_no_substring_completes none
      ⟨Stage.analyzing, 3, ["Fever"], ["I have a fever"]⟩ "you know"
      rfl (by decide) (by decide) (by decide)).1,
   by decide⟩

/-- C10: a blank (empty or whitespace-only) user utterance is a complete
no-op: `handleUserMessage` returns before any update, so the conversation
state is unchanged and no system utterance is produced. -/
theorem blank_utterance_noop (o : Option SymptomAnalysis) (conv : ConvState)
    (u : String) (h : isBlank u = true) :
    handleUserMessage o conv u = (conv, none) := by
  simp [handleUserMessage, h]

/-- C10 (witness): a whitespace-only utterance leaves the initial state
untouched and produces no message. -/
theorem blank_utterance_noop_witness :
    handleUserMessage none initialConversationState "   " =
      (initialConversationState, none) :=
  blank_utterance_noop none initialConversationState "   " (by decide)
